import Mathlib

/-!
# Verification of the cauldron real-time monitoring engine

A shallow embedding of the reconciliation-and-anomaly-detection core
(`monitoring.ts`): fill-rate estimation, drain detection, ticket matching,
discrepancy classification and the per-tick orchestrator, together with
theorems settling the specification's claims about them.

Modelling conventions:
* JavaScript numbers are modelled as `ℚ`; timestamps (`Date.getTime()`
  milliseconds) as `ℤ`.  `NaN`/invalid-date behaviour is outside the model:
  a missing or unparseable timestamp is `none`.
* JS `Map`/`Set` values are modelled as association lists (`List (String × _)`)
  with JS `Map.set` semantics (replace in place, else append) and `List String`.
* The telemetry record keys the source derives from a vessel id
  (`cauldron_` + zero-padded suffix) are modelled by keying telemetry levels
  with the vessel id itself; the renaming is injective on the ids in use and
  none of the claims concern it.
* The source mutates `DrainEvent` objects shared between the `activeDrains`
  map and the `drainEvents` array.  The embedding models this object identity
  with an explicit store `drainStore : List (ℕ × DrainEvent)`; `drainEvents`
  and `activeDrains` hold references (store keys).
* Free-text alert fields (`message`, `reason`, `action`) and the prose/string
  entries of the `details` record are presentation only and are omitted; the
  numeric entries of `details` are kept as `List (String × ℚ)`.
* `courierPositions` is carried by the source state but never read or written
  by any function of the core, and is omitted.
* `Date.getHours`/`getMinutes` (local time) and `toISOString` (UTC) are both
  modelled in UTC.
-/

/-- JS truthiness of an optional string: `null`/`undefined`/`""` are falsy. -/
def strFalsy : Option String → Bool
  | none => true
  | some s => s = ""

/-- JS truthiness of a number (`NaN` not modelled): only `0` is falsy. -/
def numFalsy (q : ℚ) : Bool := q = 0

/-- JS `x || d` for an optional number `x`: `0` and missing both fall back. -/
def jsOr (o : Option ℚ) (d : ℚ) : ℚ :=
  match o with
  | some v => if v = 0 then d else v
  | none => d

/-- JS `Map.get`: the value at the first binding of the key. -/
def aget {κ α : Type} [DecidableEq κ] : List (κ × α) → κ → Option α
  | [], _ => none
  | (k', v') :: t, k => if k' = k then some v' else aget t k

/-- JS `Map.set`: replace the first binding of the key, else append. -/
def aset {κ α : Type} [DecidableEq κ] : List (κ × α) → κ → α → List (κ × α)
  | [], k, v => [(k, v)]
  | (k', v') :: t, k, v => if k' = k then (k, v) :: t else (k', v') :: aset t k v

/-- JS `Map.delete`: drop the first binding of the key. -/
def aerase {κ α : Type} [DecidableEq κ] : List (κ × α) → κ → List (κ × α)
  | [], _ => []
  | (k', v') :: t, k => if k' = k then t else (k', v') :: aerase t k

/-- The calendar-day index of a timestamp: the date component of
`Date.toISOString()` (UTC), as days since the epoch. -/
def dayIndex (t : ℤ) : ℤ := Int.fdiv t 86400000

/-- `Date.getHours()` (modelled in UTC). -/
def hourOfDay (t : ℤ) : ℤ := Int.fdiv t 3600000 % 24

/-- `Date.getMinutes()` (modelled in UTC). -/
def minuteOfHour (t : ℤ) : ℤ := Int.fdiv t 60000 % 60

/-- `CauldronDto` (geographic coordinates are never read by the core). -/
structure CauldronDto where
  id : Option String
  name : Option String
  max_volume : ℚ
deriving Repr, DecidableEq

/-- `TicketDto`; `date` is the parsed ticket timestamp in milliseconds,
`none` when missing or empty. -/
structure TicketDto where
  ticket_id : Option String
  cauldron_id : Option String
  amount_collected : ℚ
  courier_id : Option String
  date : Option ℤ
deriving Repr, DecidableEq

/-- `HistoricalDataDto`: one telemetry sample; `levels` maps each vessel id to
its level (the source's `cauldron_levels` record, rekeyed by vessel id). -/
structure HistoricalDataDto where
  timestamp : ℤ
  levels : List (String × ℚ)
deriving Repr, DecidableEq

/-- `CourierDto` (capacity is never read by the core). -/
structure CourierDto where
  courier_id : Option String
deriving Repr, DecidableEq

/-- `EdgeDto` of the delivery network (`from` is a Lean keyword). -/
structure EdgeDto where
  edgeFrom : Option String
  edgeTo : Option String
  travel_time_minutes : ℚ
deriving Repr, DecidableEq

/-- `NetworkDto`. -/
structure NetworkDto where
  edges : Option (List EdgeDto)
deriving Repr, DecidableEq

/-- `DrainEvent`. `timestamp` is the tick at which the drain was first
detected; the source never updates it while the drain is extended. -/
structure DrainEvent where
  cauldronId : String
  timestamp : ℤ
  levelBefore : ℚ
  levelAfter : ℚ
  expectedDrainVolume : ℚ
  duration : ℚ
  refillRate : Option ℚ
  isActive : Bool
deriving Repr, DecidableEq

/-- The alert `type` union of the source. -/
inductive AlertType where
  | drain | discrepancy | drift | fill_rate | overflow | delay | audit | trend
  | overreporting | unlogged_drain | false_ticket | unlogged_event
  | clogged_flow | production_stop | delivery_delay | late_delivery
  | merge_violation | critical_level
deriving Repr, DecidableEq

/-- Alert severity. -/
inductive Severity where
  | info | warning | critical
deriving Repr, DecidableEq

/-- The string the source uses for a discrepancy-classification type when
building alert ids. -/
def typeKey : AlertType → String
  | .overreporting => "overreporting"
  | .unlogged_drain => "unlogged_drain"
  | .unlogged_event => "unlogged_event"
  | .overflow => "overflow"
  | .audit => "audit"
  | .drift => "drift"
  | .false_ticket => "false_ticket"
  | .clogged_flow => "clogged_flow"
  | .production_stop => "production_stop"
  | .delivery_delay => "delivery_delay"
  | .critical_level => "critical_level"
  | _ => ""

/-- `Alert`, with the free-text fields omitted and the numeric entries of the
`details` record kept. -/
structure Alert where
  id : String
  type : AlertType
  severity : Severity
  cauldronId : Option String
  timestamp : ℤ
  details : List (String × ℚ)
deriving Repr, DecidableEq

/-- `MonitoringState` (see the module comment for the drain-event store). -/
structure MonitoringState where
  fillRates : List (String × ℚ)
  baselineFillRates : List (String × ℚ)
  lastLevels : List (String × ℚ)
  drainStore : List (ℕ × DrainEvent)
  drainEvents : List ℕ
  nextDrainRef : ℕ
  dailyDrains : List (String × List (ℤ × ℚ))
  dailyTickets : List (String × List (ℤ × List TicketDto))
  discrepancyCounts : List (String × ℕ)
  overflowForecasts : List (String × ℚ)
  activeDrains : List (String × ℕ)
  lastStableTime : List (String × ℤ)
  acknowledgedAlerts : List String
  criticalLevelAlerts : List String
deriving Repr, DecidableEq

/-- `TOLERANCE = 2.0` litres. -/
def TOLERANCE : ℚ := 2

/-- `DRAIN_STABILIZATION_TIME = 5` minutes. -/
def DRAIN_STABILIZATION_TIME : ℚ := 5

/-- `PRODUCTION_STOP_THRESHOLD = 0.1` L/min. -/
def PRODUCTION_STOP_THRESHOLD : ℚ := 1/10

/-- `PRODUCTION_STOP_DURATION = 30` minutes. -/
def PRODUCTION_STOP_DURATION : ℚ := 30

/-- The level of one telemetry sample for a vessel:
`(data.cauldron_levels)[key] || 0`. -/
def levelAt (d : HistoricalDataDto) (key : String) : ℚ :=
  (aget d.levels key).getD 0

/-- The positive-slope collection loop of `calculateFillRate`: for each
consecutive sample pair whose second sample is at or after the cutoff, with
positive time difference and rising level, the slope `Δlevel/Δtime` (L/min). -/
def positiveSlopes (key : String) (data : List HistoricalDataDto) (cutoffTime : ℚ) : List ℚ :=
  (data.zip data.tail).filterMap fun (prevData, currData) =>
    if (currData.timestamp : ℚ) < cutoffTime then none
    else
      let prevLevel := levelAt prevData key
      let currLevel := levelAt currData key
      let timeDiff : ℚ := ((currData.timestamp - prevData.timestamp : ℤ) : ℚ) / 60000
      if timeDiff > 0 ∧ currLevel > prevLevel then
        some ((currLevel - prevLevel) / timeDiff)
      else none

/-- `calculateFillRate`: the median of the positive consecutive slopes within
the lookback window ending at the last sample; `0` with fewer than two samples
or no positive slope. -/
def calculateFillRate (cauldronId : String) (historicalData : List HistoricalDataDto)
    (lookbackMinutes : ℚ) : ℚ :=
  if historicalData.length < 2 then 0
  else
    match historicalData.getLast? with
    | none => 0
    | some lastD =>
      let currentTime : ℚ := (lastD.timestamp : ℚ)
      let cutoffTime := currentTime - lookbackMinutes * 60 * 1000
      let slopes := positiveSlopes cauldronId historicalData cutoffTime
      if slopes.length = 0 then 0
      else
        let sorted := slopes.insertionSort (· ≤ ·)
        let mid := slopes.length / 2
        if slopes.length % 2 = 0 then (sorted.getD (mid - 1) 0 + sorted.getD mid 0) / 2
        else sorted.getD mid 0

/-- `calculateExpectedDrainVolume`: observed drop corrected for concurrent
filling. -/
def calculateExpectedDrainVolume (levelBefore levelAfter fillRate durationMinutes : ℚ) : ℚ :=
  let levelDrop := levelBefore - levelAfter
  let fillDuringDrain := fillRate * durationMinutes
  levelDrop + fillDuringDrain

/-- `detectDrainStart`: a drop exceeding 5% of capacity (falsy id or capacity
bails out). -/
def detectDrainStart (cauldron : CauldronDto) (previousLevel currentLevel : ℚ) : Bool :=
  if strFalsy cauldron.id ∨ numFalsy cauldron.max_volume then false
  else
    let drop := previousLevel - currentLevel
    let threshold := (5/100 : ℚ) * cauldron.max_volume
    drop > threshold ∧ drop > 0

/-- Eligibility filter of `matchTicketToDrain`: present date, same vessel,
same calendar day, within two hours of the drain start. -/
def eligibleTicket (drainEvent : DrainEvent) (t : TicketDto) : Bool :=
  match t.date with
  | none => false
  | some ts =>
    t.cauldron_id = some drainEvent.cauldronId ∧
    dayIndex ts = dayIndex drainEvent.timestamp ∧
    (ts - drainEvent.timestamp).natAbs ≤ 2 * 60 * 60 * 1000

/-- The sort key of `matchTicketToDrain`: absolute distance (ms) from the
ticket time to the drain start. -/
def tKey (drainTime : ℤ) (t : TicketDto) : ℕ := (t.date.getD 0 - drainTime).natAbs

/-- `matchTicketToDrain`: filter eligible tickets, stable-sort by time
distance (JS `Array.sort` is a stable sort, modelled by `insertionSort`),
return the first. -/
def matchTicketToDrain (drainEvent : DrainEvent) (tickets : List TicketDto) :
    Option TicketDto :=
  let matchingTickets := tickets.filter (eligibleTicket drainEvent)
  if matchingTickets.isEmpty then none
  else
    (matchingTickets.insertionSort fun a b =>
      tKey drainEvent.timestamp a ≤ tKey drainEvent.timestamp b).head?

/-- The classification returned by `assessDiscrepancy` (free-text
`reason`/`action` omitted). -/
structure DiscrepancyResult where
  type : AlertType
  severity : Severity
deriving Repr, DecidableEq

/-- `assessDiscrepancy`: the discrepancy decision table.  The source's
`ticket.amount_collected || 0` is the identity on (non-`NaN`) numbers. -/
def assessDiscrepancy (drainEvent : DrainEvent) (ticket : Option TicketDto)
    (tolerance : ℚ) : Option DiscrepancyResult :=
  let expected := drainEvent.expectedDrainVolume
  match ticket with
  | none => some ⟨.unlogged_event, .critical⟩
  | some t =>
    let reported := t.amount_collected
    let diff := reported - expected
    if diff > tolerance then some ⟨.overreporting, .warning⟩
    else if diff < -tolerance then some ⟨.unlogged_drain, .critical⟩
    else none

/-- `checkFalseTicket`: true when no finalized drain shares the ticket's
calendar day within two hours. -/
def checkFalseTicket (ticket : TicketDto) (recentDrains : List DrainEvent) : Bool :=
  match ticket.date with
  | none => true
  | some ts =>
    ¬ recentDrains.any fun drain =>
      dayIndex drain.timestamp = dayIndex ts ∧
      (ts - drain.timestamp).natAbs ≤ 2 * 60 * 60 * 1000

/-- `detectCloggedFlow`: refill rate below half the baseline (falsy refill
rate or zero baseline bail out). -/
def detectCloggedFlow (drainEvent : DrainEvent) (baselineFillRate : ℚ) : Bool :=
  match drainEvent.refillRate with
  | none => false
  | some r =>
    if r = 0 ∨ baselineFillRate = 0 then false
    else r < (5/10 : ℚ) * baselineFillRate

/-- `detectProductionStop`: `(isStopped, duration)`. -/
def detectProductionStop (currentLevel previousLevel timeDiff fillRate : ℚ)
    (lastStableTime : Option ℤ) (currentTimestamp : ℤ) : Bool × ℚ :=
  let levelChange := currentLevel - previousLevel
  let currentRate := if timeDiff > 0 then levelChange / timeDiff else 0
  if currentRate < PRODUCTION_STOP_THRESHOLD ∧ fillRate > 0 then
    let stableTime := lastStableTime.getD currentTimestamp
    let duration := ((currentTimestamp - stableTime : ℤ) : ℚ) / 60000
    (duration > PRODUCTION_STOP_DURATION, duration)
  else (false, 0)

/-- `checkDailyDiscrepancy`: `(exceedsThreshold, discrepancyPercent)`; a zero
expected total short-circuits to `(false, 0)`. -/
def checkDailyDiscrepancy (totalExpected totalTicketed threshold : ℚ) : Bool × ℚ :=
  if totalExpected = 0 then (false, 0)
  else
    let discrepancyPercent := |totalExpected - totalTicketed| / totalExpected * 100
    (discrepancyPercent > threshold, discrepancyPercent)

/-- `checkDeliveryDelay`: `none` when network/edge/ticket data is missing or
falsy, otherwise `(isDelayed, delayMinutes)`. -/
def checkDeliveryDelay (ticket : TicketDto) (network : Option NetworkDto)
    (currentTimestamp : ℤ) : Option (Bool × ℚ) :=
  match network with
  | none => none
  | some nw =>
    match nw.edges with
    | none => none
    | some edges =>
      match ticket.date with
      | none => none
      | some td =>
        if strFalsy ticket.cauldron_id then none
        else
          let timeSinceTicket := ((currentTimestamp - td : ℤ) : ℚ) / 60000
          match edges.find? (fun e => e.edgeFrom = ticket.cauldron_id) with
          | none => none
          | some edge =>
            if numFalsy edge.travel_time_minutes then none
            else
              let expectedTravelTime := edge.travel_time_minutes
              let delayThreshold := expectedTravelTime * (13/10 : ℚ)
              if timeSinceTicket > delayThreshold then
                some (true, timeSinceTicket - expectedTravelTime)
              else some (false, 0)

/-- Per-tick inputs shared by every per-vessel stage of `monitorRealTime`. -/
structure TickCtx where
  historicalData : List HistoricalDataDto
  tickets : List TicketDto
  currentTimestamp : ℤ
  dateKey : ℤ
deriving Repr

/-- The drain-finalization block of `monitorRealTime` (the body of the
stabilization branch): store the finalized event, match a ticket, classify
the discrepancy, push discrepancy/drift/clogged-flow alerts, accumulate the
daily aggregates and close the active drain. -/
def finalizeDrain (ctx : TickCtx) (cid : String) (baselineFillRate refillRate : ℚ)
    (r : ℕ) (ev' : DrainEvent) (st : MonitoringState) : MonitoringState × List Alert :=
  let currentTime := ctx.currentTimestamp
  let st := { st with drainStore := aset st.drainStore r ev' }
  let matchedTicket := matchTicketToDrain ev' ctx.tickets
  let discrepancy := assessDiscrepancy ev' matchedTicket TOLERANCE
  let reportedVolume :=
    match matchedTicket with
    | some t => t.amount_collected
    | none => 0
  let stepA :=
    match discrepancy with
    | none => (st, ([] : List Alert))
    | some disc =>
      let count := (aget st.discrepancyCounts cid).getD 0
      let st :=
        { st with discrepancyCounts := aset st.discrepancyCounts cid (count + 1) }
      let a1 : Alert :=
        { id := typeKey disc.type ++ "-" ++ cid ++ "-" ++ toString currentTime,
          type := disc.type, severity := disc.severity,
          cauldronId := some cid, timestamp := ctx.currentTimestamp,
          details := [("expectedDrainVolume", ev'.expectedDrainVolume),
                      ("reportedVolume", reportedVolume),
                      ("discrepancy", |ev'.expectedDrainVolume - reportedVolume|)] }
      let drift : List Alert :=
        if count + 1 ≥ 2 then
          [{ id := "drift-" ++ cid ++ "-" ++ toString currentTime,
             type := .drift, severity := .critical,
             cauldronId := some cid, timestamp := ctx.currentTimestamp,
             details := [("discrepancyCount", ((count : ℚ) + 1))] }]
        else []
      (st, [a1] ++ drift)
  let st := stepA.1
  let cloggedAlerts : List Alert :=
    if detectCloggedFlow ev' baselineFillRate then
      [{ id := "clogged-flow-" ++ cid ++ "-" ++ toString currentTime,
         type := .clogged_flow, severity := .warning,
         cauldronId := some cid, timestamp := ctx.currentTimestamp,
         details := [("refillRate", refillRate),
                     ("baselineFillRate", baselineFillRate)] }]
    else []
  let dailyDrainsMap := (aget st.dailyDrains cid).getD []
  let currentDailyTotal := (aget dailyDrainsMap ctx.dateKey).getD 0
  let dd := aset st.dailyDrains cid
    (aset dailyDrainsMap ctx.dateKey (currentDailyTotal + ev'.expectedDrainVolume))
  let st := { st with dailyDrains := dd }
  let st :=
    match matchedTicket with
    | none => st
    | some mt =>
      let dailyTicketsMap := (aget st.dailyTickets cid).getD []
      let dayTickets := (aget dailyTicketsMap ctx.dateKey).getD []
      if dayTickets.any (fun t => t.ticket_id = mt.ticket_id) then st
      else
        let dt := aset st.dailyTickets cid
          (aset dailyTicketsMap ctx.dateKey (dayTickets ++ [mt]))
        { st with dailyTickets := dt }
  let st := { st with activeDrains := aerase st.activeDrains cid }
  (st, stepA.2 ++ cloggedAlerts)

/-- Rule A of `monitorRealTime` for one vessel: drain start, extension, and
finalization (discrepancy/drift/clogged-flow alerts, daily aggregates, ticket
storage).  Returns the updated state and the alerts pushed by this block. -/
def drainStage (ctx : TickCtx) (cauldron : CauldronDto) (cid : String)
    (currentLevel previousLevel fillRate baselineFillRate : ℚ)
    (st : MonitoringState) : MonitoringState × List Alert :=
  let currentTime := ctx.currentTimestamp
  let timeDiff : ℚ := 1
  let activeRef := aget st.activeDrains cid
  if detectDrainStart cauldron previousLevel currentLevel then
    match activeRef with
    | none =>
      let newDrain : DrainEvent :=
        { cauldronId := cid, timestamp := ctx.currentTimestamp,
          levelBefore := previousLevel, levelAfter := currentLevel,
          expectedDrainVolume :=
            calculateExpectedDrainVolume previousLevel currentLevel fillRate timeDiff,
          duration := timeDiff, refillRate := none, isActive := true }
      let r := st.nextDrainRef
      ({ st with drainStore := aset st.drainStore r newDrain,
                 drainEvents := st.drainEvents ++ [r],
                 nextDrainRef := r + 1,
                 activeDrains := aset st.activeDrains cid r }, [])
    | some r =>
      match aget st.drainStore r with
      | none => (st, [])
      | some ev =>
        let ev' := { ev with
          levelAfter := currentLevel,
          duration := ev.duration + timeDiff,
          expectedDrainVolume :=
            calculateExpectedDrainVolume ev.levelBefore currentLevel fillRate
              (ev.duration + timeDiff) }
        ({ st with drainStore := aset st.drainStore r ev' }, [])
  else
    match activeRef with
    | none => (st, [])
    | some r =>
      match aget st.drainStore r with
      | none => (st, [])
      | some ev =>
        let timeSinceLastDrop := ((currentTime - ev.timestamp : ℤ) : ℚ) / 60000
        if timeSinceLastDrop ≥ DRAIN_STABILIZATION_TIME then
          let refillRate :=
            if currentLevel > ev.levelAfter then
              (currentLevel - ev.levelAfter) / timeSinceLastDrop
            else 0
          finalizeDrain ctx cid baselineFillRate refillRate r
            { ev with refillRate := some refillRate, isActive := false } st
        else (st, [])

/-- Case C of `monitorRealTime` for one vessel: flag tickets with no
finalized drain in the same-day two-hour window. -/
def falseTicketStage (ctx : TickCtx) (cid : String) (st : MonitoringState) : List Alert :=
  let cauldronTickets :=
    ctx.tickets.filter fun t => t.cauldron_id = some cid ∧ t.date ≠ none
  let recentDrains :=
    (st.drainEvents.filterMap fun r => aget st.drainStore r).filter
      fun d => d.cauldronId = cid ∧ d.isActive = false
  cauldronTickets.filterMap fun ticket =>
    if checkFalseTicket ticket recentDrains then
      some { id := "false-ticket-" ++ ticket.ticket_id.getD "null" ++ "-" ++
                   toString ctx.currentTimestamp,
             type := .false_ticket, severity := .warning,
             cauldronId := some cid, timestamp := ctx.currentTimestamp,
             details := [("ticketAmount", ticket.amount_collected)] }
    else none

/-- Case G of `monitorRealTime` for one vessel: production-stop alerting and
last-stable-time bookkeeping. -/
def productionStopStage (ctx : TickCtx) (cid : String)
    (currentLevel previousLevel fillRate : ℚ) (st : MonitoringState) :
    MonitoringState × List Alert :=
  let productionStop :=
    detectProductionStop currentLevel previousLevel 1 fillRate
      (aget st.lastStableTime cid) ctx.currentTimestamp
  if productionStop.1 then
    (st, [{ id := "production-stop-" ++ cid ++ "-" ++ toString ctx.currentTimestamp,
            type := .production_stop, severity := .critical,
            cauldronId := some cid, timestamp := ctx.currentTimestamp,
            details := [("duration", productionStop.2),
                        ("currentLevel", currentLevel)] }])
  else if currentLevel > previousLevel then
    ({ st with lastStableTime := aerase st.lastStableTime cid }, [])
  else if (aget st.lastStableTime cid) = none then
    ({ st with lastStableTime := aset st.lastStableTime cid ctx.currentTimestamp }, [])
  else (st, [])

/-- Rule 6 of `monitorRealTime` for one vessel: overflow forecast and the
overflow alert gated on the `[9,11]`-minute window and acknowledgement. -/
def overflowStage (ctx : TickCtx) (cid : String) (cauldron : CauldronDto)
    (currentLevel fillRate : ℚ) (st : MonitoringState) :
    MonitoringState × List Alert :=
  if fillRate > 0 then
    let timeToOverflow := (cauldron.max_volume - currentLevel) / fillRate
    let st := { st with overflowForecasts := aset st.overflowForecasts cid timeToOverflow }
    let alertId := "overflow-" ++ cid
    if timeToOverflow ≥ 9 ∧ timeToOverflow ≤ 11 ∧
        alertId ∉ st.acknowledgedAlerts ∧ timeToOverflow < 240 then
      (st, [{ id := alertId, type := .overflow, severity := .critical,
              cauldronId := some cid, timestamp := ctx.currentTimestamp,
              details := [("timeToOverflow", timeToOverflow),
                          ("currentLevel", currentLevel),
                          ("maxVolume", cauldron.max_volume)] }])
    else (st, [])
  else (st, [])

/-- Critical-level block of `monitorRealTime` for one vessel: edge-triggered
80%-of-capacity alert with the per-vessel already-alerted set. -/
def criticalLevelStage (ctx : TickCtx) (cid : String) (cauldron : CauldronDto)
    (currentLevel previousLevel : ℚ) (st : MonitoringState) :
    MonitoringState × List Alert :=
  let percentage := currentLevel / cauldron.max_volume * 100
  let previousPercentage := previousLevel / cauldron.max_volume * 100
  let criticalThreshold : ℚ := 80
  if percentage > criticalThreshold ∧ previousPercentage ≤ criticalThreshold then
    let alertId := "critical-level-" ++ cid
    if alertId ∉ st.acknowledgedAlerts ∧ cid ∉ st.criticalLevelAlerts then
      ({ st with criticalLevelAlerts := st.criticalLevelAlerts ++ [cid] },
       [{ id := alertId, type := .critical_level, severity := .critical,
          cauldronId := some cid, timestamp := ctx.currentTimestamp,
          details := [("currentLevel", currentLevel),
                      ("maxVolume", cauldron.max_volume),
                      ("percentage", percentage)] }])
    else (st, [])
  else if percentage ≤ criticalThreshold ∧ previousPercentage > criticalThreshold then
    ({ st with criticalLevelAlerts := st.criticalLevelAlerts.erase cid }, [])
  else (st, [])

/-- The per-vessel body of `monitorRealTime`'s `cauldrons.forEach`: guard,
fill-rate and baseline update, then the five stages and the last-level
update.  `origState` is the pre-tick state whose `lastLevels` the source
reads for the previous level. -/
def processCauldron (origState : MonitoringState) (ctx : TickCtx)
    (currentLevels : List (String × ℚ)) (acc : MonitoringState × List Alert)
    (cauldron : CauldronDto) : MonitoringState × List Alert :=
  if strFalsy cauldron.id ∨ numFalsy cauldron.max_volume then acc
  else
    let st := acc.1
    let cid := cauldron.id.getD ""
    let currentLevel := (aget currentLevels cid).getD 0
    let previousLevel := jsOr (aget origState.lastLevels cid) currentLevel
    let fillRate := calculateFillRate cid ctx.historicalData 60
    let baselineFillRate := jsOr (aget st.baselineFillRates cid) fillRate
    let st :=
      if (aget st.baselineFillRates cid) = none ∧ fillRate > 0 then
        { st with baselineFillRates := aset st.baselineFillRates cid fillRate }
      else st
    let st := { st with fillRates := aset st.fillRates cid fillRate }
    let s1 := drainStage ctx cauldron cid currentLevel previousLevel fillRate baselineFillRate st
    let a2 := falseTicketStage ctx cid s1.1
    let s3 := productionStopStage ctx cid currentLevel previousLevel fillRate s1.1
    let s4 := overflowStage ctx cid cauldron currentLevel fillRate s3.1
    let s5 := criticalLevelStage ctx cid cauldron currentLevel previousLevel s4.1
    let st := { s5.1 with lastLevels := aset s5.1.lastLevels cid currentLevel }
    (st, acc.2 ++ s1.2 ++ a2 ++ s3.2 ++ s4.2 ++ s5.2)

/-- The Case H rollup totals: per-vessel daily expected drain volume and
ticketed volume for the tick's date, summed over all vessels with an id. -/
def auditTotals (cauldrons : List CauldronDto) (st : MonitoringState) (dateKey : ℤ) :
    ℚ × ℚ :=
  cauldrons.foldl
    (fun acc cauldron =>
      if strFalsy cauldron.id then acc
      else
        let cid := cauldron.id.getD ""
        let dailyDrainsMap := (aget st.dailyDrains cid).getD []
        let dailyTicketsMap := (aget st.dailyTickets cid).getD []
        (acc.1 + (aget dailyDrainsMap dateKey).getD 0,
         acc.2 + ((aget dailyTicketsMap dateKey).getD []).foldl
           (fun s t => s + t.amount_collected) 0))
    (0, 0)

/-- Case H of `monitorRealTime`: within the last five minutes of a day, run
the daily discrepancy check and emit at most one audit alert. -/
def auditStage (cauldrons : List CauldronDto) (st : MonitoringState)
    (dateKey currentTimestamp : ℤ) : List Alert :=
  if hourOfDay currentTimestamp = 23 ∧ minuteOfHour currentTimestamp ≥ 55 then
    let totals := auditTotals cauldrons st dateKey
    let dailyCheck := checkDailyDiscrepancy totals.1 totals.2 5
    if dailyCheck.1 then
      [{ id := "daily-audit-" ++ toString currentTimestamp,
         type := .audit, severity := .warning,
         cauldronId := none, timestamp := currentTimestamp,
         details := [("totalExpected", totals.1), ("totalTicketed", totals.2),
                     ("discrepancyPercent", dailyCheck.2)] }]
    else []
  else []

/-- The delivery-integrity block of `monitorRealTime`, run only when both
courier and network reference data are supplied. -/
def deliveryStage (tickets : List TicketDto) (couriers : Option (List CourierDto))
    (network : Option NetworkDto) (currentTimestamp : ℤ) : List Alert :=
  match couriers, network with
  | some cs, some nw =>
    cs.foldl
      (fun acc courier =>
        if strFalsy courier.courier_id then acc
        else
          let courierTickets :=
            tickets.filter fun t => t.courier_id = courier.courier_id ∧ t.date ≠ none
          acc ++ courierTickets.filterMap fun ticket =>
            match checkDeliveryDelay ticket (some nw) currentTimestamp with
            | some (true, delayMinutes) =>
              some { id := "delivery-delay-" ++ courier.courier_id.getD "" ++ "-" ++
                           toString currentTimestamp,
                     type := .delivery_delay, severity := .warning,
                     cauldronId := if strFalsy ticket.cauldron_id then none
                                   else ticket.cauldron_id,
                     timestamp := currentTimestamp,
                     details := [("delayMinutes", delayMinutes)] }
            | _ => none)
      []
  | _, _ => []

/-- The nearest-neighbour snapshot selection of `monitorRealTime` (strict
comparison: the first nearest sample wins). -/
def findNearestDataPoint (historicalData : List HistoricalDataDto) (currentTime : ℤ) :
    Option HistoricalDataDto :=
  historicalData.foldl
    (fun acc d =>
      match acc with
      | none => some d
      | some best =>
        if (d.timestamp - currentTime).natAbs < (best.timestamp - currentTime).natAbs
        then some d else acc)
    none

/-- `monitorRealTime`: one orchestrator tick — per-vessel processing, the
daily audit, and delivery-delay checks — returning `(alerts, updatedState)`. -/
def monitorRealTime (cauldrons : List CauldronDto)
    (historicalData : List HistoricalDataDto) (tickets : List TicketDto)
    (currentTimestamp : ℤ) (state : MonitoringState)
    (couriers : Option (List CourierDto)) (network : Option NetworkDto) :
    List Alert × MonitoringState :=
  match findNearestDataPoint historicalData currentTimestamp with
  | none => ([], state)
  | some currentDataPoint =>
    let currentLevels := currentDataPoint.levels
    let dateKey := dayIndex currentTimestamp
    let ctx : TickCtx := ⟨historicalData, tickets, currentTimestamp, dateKey⟩
    let folded := cauldrons.foldl (processCauldron state ctx currentLevels) (state, [])
    let alerts := folded.2 ++ auditStage cauldrons folded.1 dateKey currentTimestamp
    let alerts := alerts ++ deliveryStage tickets couriers network currentTimestamp
    (alerts, folded.1)

/-- `initializeMonitoringState`. -/
def initializeMonitoringState : MonitoringState :=
  { fillRates := [], baselineFillRates := [], lastLevels := [], drainStore := [],
    drainEvents := [], nextDrainRef := 0, dailyDrains := [], dailyTickets := [],
    discrepancyCounts := [], overflowForecasts := [], activeDrains := [],
    lastStableTime := [], acknowledgedAlerts := [], criticalLevelAlerts := [] }

/-- `acknowledgeAlert`: add the id to the acknowledged set. -/
def acknowledgeAlert (state : MonitoringState) (alertId : String) : MonitoringState :=
  if alertId ∈ state.acknowledgedAlerts then state
  else { state with acknowledgedAlerts := state.acknowledgedAlerts ++ [alertId] }

/-- Test driver: play a stream of ticks through `monitorRealTime`, each tick
seeing the telemetry prefix up to its own time, accumulating all alerts. -/
def runTicks (cauldrons : List CauldronDto) (fullData : List HistoricalDataDto)
    (tickets : List TicketDto) (times : List ℤ) (s0 : MonitoringState) :
    MonitoringState × List Alert :=
  times.foldl
    (fun acc t =>
      let r := monitorRealTime cauldrons (fullData.filter fun d => d.timestamp ≤ t)
        tickets t acc.1 none none
      (r.2, acc.2 ++ r.1))
    (s0, [])

attribute [local semireducible] Rat.add Rat.mul Rat.inv Rat.sub Rat.ofScientific

/-! ## Concrete scenarios

Each claim that needs a concrete run gets its own vessel, telemetry and
tickets, played through `runTicks`. -/

/-- Scenario (overreporting): a 100 L vessel. -/
def c1Cauldron : CauldronDto := { id := some "c1", name := some "C1", max_volume := 100 }

/-- Scenario (overreporting): one 8 L drop at minute 1, then flat — fill rate
stays 0, so the finalized drain's expected volume is exactly 8. -/
def c1Data : List HistoricalDataDto :=
  [⟨0, [("c1", 58)]⟩, ⟨60000, [("c1", 50)]⟩, ⟨120000, [("c1", 50)]⟩,
   ⟨180000, [("c1", 50)]⟩, ⟨240000, [("c1", 50)]⟩, ⟨300000, [("c1", 50)]⟩,
   ⟨360000, [("c1", 50)]⟩]

/-- Scenario (overreporting): the matched ticket reports 12 L. -/
def c1Ticket : TicketDto :=
  { ticket_id := some "t1", cauldron_id := some "c1", amount_collected := 12,
    courier_id := some "k1", date := some 60000 }

/-- Scenario (overreporting): seven one-minute ticks. -/
def c1Run : MonitoringState × List Alert :=
  runTicks [c1Cauldron] c1Data [c1Ticket] [0, 60000, 120000, 180000, 240000, 300000, 360000]
    initializeMonitoringState

/-- A drain event with expected volume 8, as finalized in `c1Run`. -/
def c1Ev : DrainEvent :=
  { cauldronId := "c1", timestamp := 60000, levelBefore := 58, levelAfter := 50,
    expectedDrainVolume := 8, duration := 1, refillRate := some 0, isActive := false }

/-- Scenario (ticket reuse): a 100 L vessel. -/
def c2Cauldron : CauldronDto := { id := some "c1", name := none, max_volume := 100 }

/-- Scenario (ticket reuse): two separate drains (minute 1 and minute 8),
levels flat otherwise. -/
def c2Data : List HistoricalDataDto :=
  [⟨0, [("c1", 100)]⟩, ⟨60000, [("c1", 90)]⟩, ⟨120000, [("c1", 90)]⟩,
   ⟨180000, [("c1", 90)]⟩, ⟨240000, [("c1", 90)]⟩, ⟨300000, [("c1", 90)]⟩,
   ⟨360000, [("c1", 90)]⟩, ⟨420000, [("c1", 90)]⟩, ⟨480000, [("c1", 78)]⟩,
   ⟨540000, [("c1", 78)]⟩, ⟨600000, [("c1", 78)]⟩, ⟨660000, [("c1", 78)]⟩,
   ⟨720000, [("c1", 78)]⟩, ⟨780000, [("c1", 78)]⟩]

/-- Scenario (ticket reuse): the single ticket, within two hours of both
drain starts, on the same calendar day. -/
def c2Ticket : TicketDto :=
  { ticket_id := some "t1", cauldron_id := some "c1", amount_collected := 50,
    courier_id := none, date := some 240000 }

/-- Scenario (ticket reuse): fourteen one-minute ticks. -/
def c2Run : MonitoringState × List Alert :=
  runTicks [c2Cauldron] c2Data [c2Ticket]
    [0, 60000, 120000, 180000, 240000, 300000, 360000, 420000, 480000, 540000,
     600000, 660000, 720000, 780000]
    initializeMonitoringState

/-- The first drain finalized in `c2Run`. -/
def c2Ev1 : DrainEvent :=
  { cauldronId := "c1", timestamp := 60000, levelBefore := 100, levelAfter := 90,
    expectedDrainVolume := 10, duration := 1, refillRate := some 0, isActive := false }

/-- The second drain finalized in `c2Run`. -/
def c2Ev2 : DrainEvent :=
  { cauldronId := "c1", timestamp := 480000, levelBefore := 90, levelAfter := 78,
    expectedDrainVolume := 12, duration := 1, refillRate := some 0, isActive := false }

/-- Scenario (early finalization): a 100 L vessel. -/
def c3Cauldron : CauldronDto := { id := some "c1", name := none, max_volume := 100 }

/-- Scenario (early finalization): the level drops 10 L per minute through
minute 5 (so the drop condition still holds at minute 5), then rises by 2. -/
def c3Data : List HistoricalDataDto :=
  [⟨0, [("c1", 100)]⟩, ⟨60000, [("c1", 90)]⟩, ⟨120000, [("c1", 80)]⟩,
   ⟨180000, [("c1", 70)]⟩, ⟨240000, [("c1", 60)]⟩, ⟨300000, [("c1", 50)]⟩,
   ⟨360000, [("c1", 52)]⟩]

/-- Scenario (early finalization): seven one-minute ticks. -/
def c3Run : MonitoringState × List Alert :=
  runTicks [c3Cauldron] c3Data []
    [0, 60000, 120000, 180000, 240000, 300000, 360000] initializeMonitoringState

/-- The event `c3Run` finalizes at minute 6 — one minute after the last drop,
with `refillRate = 2/5`: the 2 L rise divided by the five minutes since the
drain *started*, not the one minute since the last drop. -/
def c3Ev : DrainEvent :=
  { cauldronId := "c1", timestamp := 60000, levelBefore := 100, levelAfter := 50,
    expectedDrainVolume := 50, duration := 5, refillRate := some (2/5), isActive := false }

/-- Scenario (fill-rate median): positive slopes `[1,1,1,100]`. -/
def c4Data : List HistoricalDataDto :=
  [⟨0, [("c1", 0)]⟩, ⟨60000, [("c1", 1)]⟩, ⟨120000, [("c1", 2)]⟩,
   ⟨180000, [("c1", 3)]⟩, ⟨240000, [("c1", 103)]⟩]

/-- Scenario (fill-rate): a repeated timestamp with a 4 L jump — a
zero-`Δtime` pair that must never be counted. -/
def c4DataZeroDt : List HistoricalDataDto :=
  [⟨0, [("c1", 0)]⟩, ⟨60000, [("c1", 1)]⟩, ⟨60000, [("c1", 5)]⟩, ⟨120000, [("c1", 6)]⟩]

/-- Scenario (fill-rate): the only rising pair ends before the 60-minute
cutoff and must be ignored. -/
def c4DataWindow : List HistoricalDataDto :=
  [⟨0, [("c1", 0)]⟩, ⟨600000, [("c1", 1000)]⟩, ⟨4200000, [("c1", 1000)]⟩,
   ⟨7800000, [("c1", 1000)]⟩]

/-- Scenario (matcher): a finalized drain at 02:00 on day 0. -/
def c5Drain : DrainEvent :=
  { cauldronId := "c1", timestamp := 7200000, levelBefore := 10, levelAfter := 5,
    expectedDrainVolume := 5, duration := 1, refillRate := none, isActive := false }

/-- Scenario (matcher): a ticket for vessel `c1` at the given time. -/
def c5Tk (n : String) (d : ℤ) : TicketDto :=
  { ticket_id := some n, cauldron_id := some "c1", amount_collected := 5,
    courier_id := none, date := some d }

/-- Scenario (matcher): two tickets at the same absolute distance (10 minutes)
from the drain start — a tie broken in favour of the first. -/
def c5Tickets : List TicketDto := [c5Tk "a" 7800000, c5Tk "b" 6600000]

/-- Scenario (overflow re-fire): a 100 L vessel. -/
def c6Cauldron : CauldronDto := { id := some "c1", name := none, max_volume := 100 }

/-- Scenario (overflow re-fire): rising 1 L/min from 80 to 90, then flat, so
the fill-rate estimate is 1 and time-to-overflow stays exactly 10 minutes on
both played ticks. -/
def c6Data : List HistoricalDataDto :=
  [⟨0, [("c1", 80)]⟩, ⟨60000, [("c1", 81)]⟩, ⟨120000, [("c1", 82)]⟩,
   ⟨180000, [("c1", 83)]⟩, ⟨240000, [("c1", 84)]⟩, ⟨300000, [("c1", 85)]⟩,
   ⟨360000, [("c1", 86)]⟩, ⟨420000, [("c1", 87)]⟩, ⟨480000, [("c1", 88)]⟩,
   ⟨540000, [("c1", 89)]⟩, ⟨600000, [("c1", 90)]⟩, ⟨660000, [("c1", 90)]⟩]

/-- Scenario (overflow re-fire): two consecutive ticks with the triggering
condition persisting and no acknowledgement. -/
def c6Run : MonitoringState × List Alert :=
  runTicks [c6Cauldron] c6Data [] [600000, 660000] initializeMonitoringState

/-- Scenario (critical-level edge trigger): level 70, up to 85, flat, down to
70, up to 85 again — two upward crossings of 80%. -/
def c6bData : List HistoricalDataDto :=
  [⟨0, [("c1", 70)]⟩, ⟨60000, [("c1", 85)]⟩, ⟨120000, [("c1", 85)]⟩,
   ⟨180000, [("c1", 70)]⟩, ⟨240000, [("c1", 85)]⟩]

/-- Scenario (critical-level edge trigger): five one-minute ticks. -/
def c6bRun : MonitoringState × List Alert :=
  runTicks [c6Cauldron] c6bData [] [0, 60000, 120000, 180000, 240000]
    initializeMonitoringState

/-- Scenario (daily audit): the ticket whose 90 L are already accumulated in
the day's matched-ticket aggregate. -/
def c8Ticket : TicketDto :=
  { ticket_id := some "t9", cauldron_id := some "c1", amount_collected := 90,
    courier_id := none, date := some 0 }

/-- Scenario (daily audit): a state carrying `Σexpected = 100` and
`Σreported = 90` for day 0, level flat at 90. -/
def c8State : MonitoringState :=
  { initializeMonitoringState with
    dailyDrains := [("c1", [(0, 100)])],
    dailyTickets := [("c1", [(0, [c8Ticket])])],
    lastLevels := [("c1", 90)] }

/-- Scenario (daily audit): a single flat sample at 23:55 of day 0. -/
def c8Data : List HistoricalDataDto := [⟨86100000, [("c1", 90)]⟩]

/-- Scenario (daily audit): two ticks inside the same day's 23:55–23:59
window. -/
def c8Run : MonitoringState × List Alert :=
  runTicks [c6Cauldron] c8Data [] [86100000, 86160000] c8State

/-- Scenario (daily audit, single tick): one tick at 23:55. -/
def c8OneRun : MonitoringState × List Alert :=
  runTicks [c6Cauldron] c8Data [] [86100000] c8State

/-- Scenario (negative capacity): `max_volume = -1` is truthy in JS, so the
guard `!cauldron.max_volume` does not exclude it. -/
def c9Cauldron : CauldronDto := { id := some "c1", name := none, max_volume := -1 }

/-- Scenario (negative capacity): a drop from 1 to 0.4 — above the (negative)
5% threshold, so drain detection runs. -/
def c9Data : List HistoricalDataDto := [⟨0, [("c1", 1)]⟩, ⟨60000, [("c1", 4/10)]⟩]

/-- Scenario (negative capacity): two one-minute ticks. -/
def c9Run : MonitoringState × List Alert :=
  runTicks [c9Cauldron] c9Data [] [0, 60000] initializeMonitoringState

/-- The per-vessel-per-day stored matched tickets never contain two tickets
with the same ticket id. -/
def dailyTicketsNodup (st : MonitoringState) : Prop :=
  ∀ cid dm, aget st.dailyTickets cid = some dm →
    ∀ dk l, aget dm dk = some l →
      l.Pairwise fun a b => a.ticket_id ≠ b.ticket_id


/-! ## Helper lemmas -/

theorem aget_aset {κ α : Type} [DecidableEq κ] (m : List (κ × α)) (k k' : κ) (v : α) :
    aget (aset m k v) k' = if k' = k then some v else aget m k' := by
  induction m with
  | nil =>
    by_cases h : k' = k
    · subst h; simp [aset, aget]
    · simp [aset, aget, h, Ne.symm h]
  | cons hd t ih =>
    obtain ⟨hk, hv⟩ := hd
    by_cases hkk : hk = k
    · subst hkk
      by_cases h2 : k' = hk
      · subst h2; simp [aset, aget]
      · simp [aset, aget, h2, Ne.symm h2]
    · by_cases h2 : hk = k'
      · subst h2
        simp [aset, aget, hkk]
      · simp [aset, aget, hkk, h2, Ne.symm h2, ih]

/-- The head of a stable insertion sort by a `ℕ`-valued key is the first
element of the list attaining the minimal key. -/
theorem head_insertionSort_firstMin {α : Type} (key : α → ℕ) :
    ∀ (l : List α) (x : α),
      (l.insertionSort fun a b => key a ≤ key b).head? = some x →
      x ∈ l ∧ (∀ y ∈ l, key x ≤ key y) ∧
        ∃ l1 l2, l = l1 ++ x :: l2 ∧ ∀ y ∈ l1, key x < key y := by
  haveI htot : IsTotal α (fun a b => key a ≤ key b) := ⟨fun a b => Nat.le_total _ _⟩
  haveI htr : IsTrans α (fun a b => key a ≤ key b) :=
    ⟨fun a b d h1 h2 => Nat.le_trans h1 h2⟩
  intro l
  induction l with
  | nil => intro x hx; simp [List.insertionSort] at hx
  | cons a l ih =>
    intro x hx
    rw [List.insertionSort] at hx
    rcases hs : l.insertionSort fun a b => key a ≤ key b with _ | ⟨c, t⟩
    · rw [hs] at hx
      simp only [List.orderedInsert, List.head?_cons, Option.some.injEq] at hx
      subst hx
      have hl : l = [] := by
        have hlen := List.length_insertionSort (fun a b => key a ≤ key b) l
        rw [hs] at hlen
        exact List.length_eq_zero.mp hlen.symm
      subst hl
      exact ⟨by simp, by simp, [], [], by simp, by simp⟩
    · rw [hs] at hx
      rw [List.orderedInsert] at hx
      by_cases hac : key a ≤ key c
      · simp only [hac, if_pos, List.head?_cons, Option.some.injEq] at hx
        subst hx
        refine ⟨by simp, ?_, [], l, by simp, by simp⟩
        intro y hy
        rcases List.mem_cons.mp hy with hy | hy
        · subst hy; exact Nat.le_refl _
        · have hyc : y ∈ c :: t := by
            rw [← hs, List.mem_insertionSort]; exact hy
          rcases List.mem_cons.mp hyc with hyc | hyc
          · subst hyc; exact hac
          · have hsorted : List.Sorted (fun a b => key a ≤ key b) (c :: t) := by
              rw [← hs]
              exact List.sorted_insertionSort _ l
            exact Nat.le_trans hac (List.rel_of_sorted_cons hsorted y hyc)
      · simp only [hac, if_neg, not_false_iff, List.head?_cons, Option.some.injEq] at hx
        subst hx
        obtain ⟨hmem, hmin, p, q, hpq, hgt⟩ := ih c (by rw [hs]; rfl)
        refine ⟨List.mem_cons_of_mem a hmem, ?_, a :: p, q, by simp [hpq], ?_⟩
        · intro y hy
          rcases List.mem_cons.mp hy with hy | hy
          · subst hy; exact Nat.le_of_lt (Nat.lt_of_not_le hac)
          · exact hmin y hy
        · intro y hy
          rcases List.mem_cons.mp hy with hy | hy
          · subst hy; exact Nat.lt_of_not_le hac
          · exact hgt y hy

/-! ## Claims -/

/-- C1: for every finalized drain assessed with tolerance 2.0, the
classification follows the decision table — no matched ticket gives a
critical `unlogged_event`; reported exceeding expected by more than 2.0
gives an `overreporting` warning; expected exceeding reported by more than
2.0 gives a critical `unlogged_drain`; otherwise no discrepancy — and in the
concrete run with expected volume 8.0 and a matched ticket reporting 12.0,
exactly one overreporting warning is emitted, carrying difference 4.0 in its
detail map. -/
theorem c1_discrepancy_decision_table :
    (∀ ev : DrainEvent,
      assessDiscrepancy ev none TOLERANCE = some ⟨.unlogged_event, .critical⟩) ∧
    (∀ (ev : DrainEvent) (t : TicketDto),
      t.amount_collected - ev.expectedDrainVolume > TOLERANCE →
      assessDiscrepancy ev (some t) TOLERANCE = some ⟨.overreporting, .warning⟩) ∧
    (∀ (ev : DrainEvent) (t : TicketDto),
      ev.expectedDrainVolume - t.amount_collected > TOLERANCE →
      assessDiscrepancy ev (some t) TOLERANCE = some ⟨.unlogged_drain, .critical⟩) ∧
    (∀ (ev : DrainEvent) (t : TicketDto),
      |t.amount_collected - ev.expectedDrainVolume| ≤ TOLERANCE →
      assessDiscrepancy ev (some t) TOLERANCE = none) ∧
    c1Run.2.filter (fun a => a.type = .overreporting) =
      [{ id := "overreporting-c1-360000", type := .overreporting,
         severity := .warning, cauldronId := some "c1", timestamp := 360000,
         details := [("expectedDrainVolume", 8), ("reportedVolume", 12),
                     ("discrepancy", 4)] }] := by
  refine ⟨fun ev => rfl, fun ev t h => ?_, fun ev t h => ?_, fun ev t h => ?_, by decide⟩
  · simp only [assessDiscrepancy, TOLERANCE] at h ⊢
    rw [if_pos (by linarith)]
  · simp only [assessDiscrepancy, TOLERANCE] at h ⊢
    rw [if_neg (by linarith), if_pos (by linarith)]
  · obtain ⟨h1, h2⟩ := abs_le.mp h
    simp only [assessDiscrepancy, TOLERANCE] at h1 h2 ⊢
    rw [if_neg (by linarith), if_neg (by linarith)]

/-- Witness for C1 at concrete inputs: the drain with expected volume 8 and
tickets reporting 12 (overreporting), 1 (unlogged drain) and 9 (within
tolerance). -/
theorem c1_discrepancy_decision_table_witness :
    assessDiscrepancy c1Ev (some c1Ticket) TOLERANCE =
      some ⟨.overreporting, .warning⟩ ∧
    assessDiscrepancy c1Ev (some { c1Ticket with amount_collected := 1 }) TOLERANCE =
      some ⟨.unlogged_drain, .critical⟩ ∧
    assessDiscrepancy c1Ev (some { c1Ticket with amount_collected := 9 }) TOLERANCE =
      none :=
  ⟨c1_discrepancy_decision_table.2.1 c1Ev c1Ticket (by decide),
   c1_discrepancy_decision_table.2.2.1 c1Ev _ (by decide),
   c1_discrepancy_decision_table.2.2.2.1 c1Ev _ (by decide)⟩

/-- C4: `calculateFillRate` returns 0 with fewer than two samples, returns 0
when no positive slope exists in the lookback window, computes the median of
the positive slopes — for slopes `[1,1,1,100]` the result is 1 — and never
counts pairs with zero time difference (the repeated-timestamp jump of
`c4DataZeroDt` contributes no slope) nor pairs ending before the 60-minute
cutoff (`c4DataWindow` yields 0). -/
theorem c4_fill_rate_median :
    (∀ (cid : String) (data : List HistoricalDataDto) (lb : ℚ),
      data.length < 2 → calculateFillRate cid data lb = 0) ∧
    (∀ (cid : String) (data : List HistoricalDataDto) (lb : ℚ)
        (lastD : HistoricalDataDto),
      data.getLast? = some lastD →
      positiveSlopes cid data ((lastD.timestamp : ℚ) - lb * 60 * 1000) = [] →
      calculateFillRate cid data lb = 0) ∧
    calculateFillRate "c1" c4Data 60 = 1 ∧
    calculateFillRate "c1" c4DataZeroDt 60 = 1 ∧
    positiveSlopes "c1" c4DataZeroDt ((120000 : ℚ) - 60 * 60 * 1000) = [1, 1] ∧
    calculateFillRate "c1" c4DataWindow 60 = 0 := by
  refine ⟨fun cid data lb h => ?_, fun cid data lb lastD hlast hsl => ?_,
    by decide, by decide, by decide, by decide⟩
  · simp [calculateFillRate, h]
  · simp only [calculateFillRate]
    split
    · rfl
    · rw [hlast]
      simp [hsl]

/-- Witness for C4 at concrete inputs: a one-sample history and a flat
two-sample history both yield fill rate 0. -/
theorem c4_fill_rate_median_witness :
    calculateFillRate "c1" [⟨0, [("c1", 5)]⟩] 60 = 0 ∧
    calculateFillRate "c1" [⟨0, [("c1", 5)]⟩, ⟨60000, [("c1", 5)]⟩] 60 = 0 :=
  ⟨c4_fill_rate_median.1 "c1" _ 60 (by decide),
   c4_fill_rate_median.2.1 "c1" _ 60 ⟨60000, [("c1", 5)]⟩ (by decide) (by decide)⟩

/-- C7: `calculateExpectedDrainVolume` is exactly
`(level_before − level_after) + fill_rate × duration`, and whenever a tick's
drop condition holds, the drain event created or extended by `drainStage`
satisfies that conservation equation with the tick's fill rate — so under a
constant fill rate the invariant holds over the whole drain. -/
theorem c7_drain_conservation :
    (∀ levelBefore levelAfter fillRate d : ℚ,
      calculateExpectedDrainVolume levelBefore levelAfter fillRate d =
        (levelBefore - levelAfter) + fillRate * d) ∧
    (∀ (ctx : TickCtx) (cauldron : CauldronDto) (cid : String)
        (currentLevel previousLevel fillRate baselineFillRate : ℚ)
        (st : MonitoringState) (r : ℕ) (ev : DrainEvent),
      detectDrainStart cauldron previousLevel currentLevel = true →
      aget (drainStage ctx cauldron cid currentLevel previousLevel fillRate
        baselineFillRate st).1.activeDrains cid = some r →
      aget (drainStage ctx cauldron cid currentLevel previousLevel fillRate
        baselineFillRate st).1.drainStore r = some ev →
      ev.expectedDrainVolume =
        (ev.levelBefore - ev.levelAfter) + fillRate * ev.duration) := by
  refine ⟨fun a b c d => rfl, ?_⟩
  intro ctx cauldron cid cl pl fr bfr st r ev hdet hact hstore
  unfold drainStage at hact hstore
  rw [hdet] at hact hstore
  simp only [if_true] at hact hstore
  cases hA : aget st.activeDrains cid with
  | none =>
    rw [hA] at hact hstore
    simp only [aget_aset, if_pos rfl] at hact
    obtain rfl : st.nextDrainRef = r := by simpa using hact
    simp only [aget_aset, if_pos rfl] at hstore
    obtain rfl : _ = ev := by simpa using hstore
    simp [calculateExpectedDrainVolume]
  | some r' =>
    rw [hA] at hact hstore
    dsimp only at hact hstore
    cases hS : aget st.drainStore r' with
    | none =>
      rw [hS] at hact hstore
      dsimp only at hact hstore
      rw [hA] at hact
      obtain rfl : r' = r := Option.some.inj hact
      rw [hS] at hstore
      exact absurd hstore (by simp)
    | some ev0 =>
      rw [hS] at hact hstore
      dsimp only at hact hstore
      rw [hA] at hact
      obtain rfl : r' = r := Option.some.inj hact
      rw [aget_aset, if_pos rfl] at hstore
      obtain rfl : _ = ev := Option.some.inj hstore
      simp only [calculateExpectedDrainVolume]

/-- Witness for C7: the drain `drainStage` creates from level 58 to 50 at
fill rate 0 satisfies the conservation equation, as does the pure formula at
fill rate 1/2 over 4 minutes. -/
theorem c7_drain_conservation_witness :
    (8 : ℚ) = (58 - 50) + 0 * 1 ∧
    calculateExpectedDrainVolume 58 50 (1/2) 4 = (58 - 50) + (1/2) * 4 := by
  constructor
  · exact c7_drain_conservation.2 ⟨[], [], 60000, 0⟩ c1Cauldron "c1" 50 58 0 0
      initializeMonitoringState 0 ⟨"c1", 60000, 58, 50, 8, 1, none, true⟩
      (by decide) (by decide) (by decide)
  · exact c7_drain_conservation.1 58 50 (1/2) 4

/-- C10: a day whose accumulated expected drain volume is zero never
produces an audit alert — `checkDailyDiscrepancy` short-circuits to
`(false, 0)` on a zero expected total, and `auditStage` emits nothing when
the summed expected total is zero, whatever the ticketed total. -/
theorem c10_zero_expected_no_audit :
    (∀ totalTicketed threshold : ℚ,
      checkDailyDiscrepancy 0 totalTicketed threshold = (false, 0)) ∧
    (∀ (cauldrons : List CauldronDto) (st : MonitoringState) (dateKey t : ℤ),
      (auditTotals cauldrons st dateKey).1 = 0 →
      auditStage cauldrons st dateKey t = []) := by
  refine ⟨fun tt th => by simp [checkDailyDiscrepancy], ?_⟩
  intro cs st dk t h
  unfold auditStage
  split
  · simp [h, checkDailyDiscrepancy]
  · rfl

/-- Witness for C10: with no vessels the expected total is zero and a tick at
23:55 emits no audit alert; the discrepancy check on `(0, 70)` is
`(false, 0)`. -/
theorem c10_zero_expected_no_audit_witness :
    checkDailyDiscrepancy 0 70 5 = (false, 0) ∧
    auditStage [] initializeMonitoringState 0 86100000 = [] :=
  ⟨c10_zero_expected_no_audit.1 70 5,
   c10_zero_expected_no_audit.2 [] initializeMonitoringState 0 86100000 (by decide)⟩

/-- C5: the ticket matcher returns at most one ticket (an `Option`); a
returned ticket is drawn from the pool, is eligible (same vessel, same
calendar day, within the two-hour window of the drain start), minimizes the
absolute time distance among all eligible tickets, and is the *first*
eligible ticket attaining that minimum (ties break to the first
encountered); when no ticket is eligible, none is returned. -/
theorem c5_ticket_matcher (d : DrainEvent) (ts : List TicketDto) :
    (matchTicketToDrain d ts = none ↔ ∀ t ∈ ts, eligibleTicket d t = false) ∧
    (∀ tk, matchTicketToDrain d ts = some tk →
      tk ∈ ts ∧ eligibleTicket d tk = true ∧
      (∀ t ∈ ts, eligibleTicket d t = true →
        tKey d.timestamp tk ≤ tKey d.timestamp t) ∧
      ∃ l1 l2, ts.filter (eligibleTicket d) = l1 ++ tk :: l2 ∧
        ∀ t ∈ l1, tKey d.timestamp tk < tKey d.timestamp t) := by
  rcases hm : ts.filter (eligibleTicket d) with _ | ⟨a, m⟩
  · have hres : matchTicketToDrain d ts = none := by
      unfold matchTicketToDrain
      rw [hm]
      rfl
    refine ⟨⟨fun _ t ht => ?_, fun _ => hres⟩, fun tk htk => ?_⟩
    · simpa using (List.filter_eq_nil_iff.mp hm) t ht
    · rw [hres] at htk; cases htk
  · have hres : matchTicketToDrain d ts =
        ((a :: m).insertionSort fun x y =>
          tKey d.timestamp x ≤ tKey d.timestamp y).head? := by
      unfold matchTicketToDrain
      rw [hm]
      rfl
    rcases hh : ((a :: m).insertionSort fun x y =>
        tKey d.timestamp x ≤ tKey d.timestamp y).head? with _ | ⟨x⟩
    · exfalso
      have hnil := List.head?_eq_none_iff.mp hh
      have hlen := List.length_insertionSort
        (fun x y => tKey d.timestamp x ≤ tKey d.timestamp y) (a :: m)
      rw [hnil] at hlen
      simp at hlen
    · have hx := head_insertionSort_firstMin (fun t => tKey d.timestamp t) (a :: m) x hh
      obtain ⟨hmem, hmin, l1, l2, hdec, hgt⟩ := hx
      have hxts : x ∈ ts ∧ eligibleTicket d x = true := by
        have : x ∈ ts.filter (eligibleTicket d) := by rw [hm]; exact hmem
        exact List.mem_filter.mp this
      constructor
      · rw [hres, hh]
        constructor
        · intro h; cases h
        · intro hall
          exfalso
          have := hall x hxts.1
          rw [hxts.2] at this
          cases this
      · intro tk htk
        rw [hres, hh] at htk
        obtain rfl : x = tk := Option.some.inj htk
        refine ⟨hxts.1, hxts.2, ?_, l1, l2, hdec, hgt⟩
        intro t ht hel
        have : t ∈ ts.filter (eligibleTicket d) := List.mem_filter.mpr ⟨ht, hel⟩
        rw [hm] at this
        exact hmin t this

/-- Witness for C5 at concrete inputs: with two eligible tickets at the same
10-minute distance from the drain start, the matcher returns the first one,
which is eligible and minimal; with an empty pool it returns none. -/
theorem c5_ticket_matcher_witness :
    matchTicketToDrain c5Drain [] = none ∧
    (c5Tk "a" 7800000) ∈ c5Tickets ∧
    eligibleTicket c5Drain (c5Tk "a" 7800000) = true ∧
    tKey c5Drain.timestamp (c5Tk "a" 7800000) ≤
      tKey c5Drain.timestamp (c5Tk "b" 6600000) := by
  refine ⟨(c5_ticket_matcher c5Drain []).1.mpr (by simp), ?_⟩
  have h := (c5_ticket_matcher c5Drain c5Tickets).2 (c5Tk "a" 7800000) (by decide)
  exact ⟨h.1, h.2.1, h.2.2.1 (c5Tk "b" 6600000) (by decide) (by decide)⟩

/-- C3 (code evaluated at the failing input): through minute 5 the level
drops 10 L per minute, so the drop condition still holds at minute 5; yet
the minute-6 tick already finalizes the drain — `activeDrains` is empty, the
stored event is inactive, and the unlogged-event alert is stamped 360000 —
because the code measures the stabilization wait from the drain *start*
(minute 1), not from the last drop (minute 5).  The refill rate is likewise
`(52 − 50) / 5` — divided by the five minutes since the start — instead of
the claim's division by the one minute since the last drop. -/
theorem c3_finalizes_early_from_start_time :
    detectDrainStart c3Cauldron 60 50 = true ∧
    c3Run.1.activeDrains = [] ∧
    c3Run.1.drainStore = [(0, c3Ev)] ∧
    c3Ev.isActive = false ∧
    c3Ev.refillRate = some ((52 - 50) / 5) ∧
    (c3Run.2.filter fun a => a.type = .unlogged_event).map Alert.id =
      ["unlogged_event-c1-360000"] := by
  set_option maxRecDepth 100000 in decide

/-- C6 (code evaluated at the failing input): with the level pinned at 90 L
of 100 L and a 1 L/min fill-rate estimate, time-to-overflow stays exactly 10
minutes on two consecutive ticks, and the unacknowledged `overflow` alert is
emitted on *both* ticks with the identical id — it re-fires every tick while
the condition persists.  The `critical_level` alert, by contrast, is genuinely
edge-triggered: over an up–down–up double crossing of 80% the run emits
exactly two critical-level alerts, one per upward crossing, and nothing
else. -/
theorem c6_overflow_refires_every_tick :
    (c6Run.2.filter fun a => a.type = .overflow).map Alert.id =
      ["overflow-c1", "overflow-c1"] ∧
    (c6Run.2.filter fun a => a.type = .overflow).map Alert.details =
      [[("timeToOverflow", 10), ("currentLevel", 90), ("maxVolume", 100)],
       [("timeToOverflow", 10), ("currentLevel", 90), ("maxVolume", 100)]] ∧
    c6Run.1.acknowledgedAlerts = [] ∧
    (c6bRun.2.map fun a => (a.id, a.type, a.timestamp)) =
      [("critical-level-c1", .critical_level, 60000),
       ("critical-level-c1", .critical_level, 240000)] := by decide

/-- C8 counterexample: with `Σexpected = 100` and `Σreported = 90`
accumulated for day 0, the ticks at 23:55 and 23:56 of that same calendar
day *each* emit an audit alert — two audit alerts in one calendar day, not
at most one. -/
theorem c8_two_audit_alerts_same_day :
    (c8Run.2.filter fun a => a.type = .audit).map Alert.id =
      ["daily-audit-86100000", "daily-audit-86160000"] ∧
    dayIndex 86100000 = dayIndex 86160000 := by decide

/-- C8 as amended: the audit alert is emitted only on ticks whose time lies
in the 23:55–23:59 window and only when the aggregate discrepancy exceeds
the 5% threshold; it is emitted at most once per *tick* (severity warning),
not at most once per calendar day — each qualifying tick re-emits it.  The
single-tick `Σexpected = 100, Σreported = 90` scenario yields exactly one
audit alert with a 10% discrepancy. -/
theorem c8_audit_once_per_tick :
    (∀ (cs : List CauldronDto) (st : MonitoringState) (dk t : ℤ),
      (auditStage cs st dk t).length ≤ 1) ∧
    (∀ (cs : List CauldronDto) (st : MonitoringState) (dk t : ℤ),
      ¬(hourOfDay t = 23 ∧ minuteOfHour t ≥ 55) → auditStage cs st dk t = []) ∧
    (∀ (cs : List CauldronDto) (st : MonitoringState) (dk t : ℤ)
        (a : Alert), a ∈ auditStage cs st dk t →
      a.type = .audit ∧ a.severity = .warning) ∧
    (∀ (cs : List CauldronDto) (st : MonitoringState) (dk t : ℤ),
      hourOfDay t = 23 ∧ minuteOfHour t ≥ 55 →
      (checkDailyDiscrepancy (auditTotals cs st dk).1
        (auditTotals cs st dk).2 5).1 = true →
      (auditStage cs st dk t).length = 1) ∧
    (c8OneRun.2.filter fun a => a.type = .audit) =
      [{ id := "daily-audit-86100000", type := .audit, severity := .warning,
         cauldronId := none, timestamp := 86100000,
         details := [("totalExpected", 100), ("totalTicketed", 90),
                     ("discrepancyPercent", 10)] }] := by
  refine ⟨fun cs st dk t => ?_, fun cs st dk t h => ?_,
    fun cs st dk t a ha => ?_, fun cs st dk t h1 h2 => ?_, by decide⟩
  · unfold auditStage
    split
    · dsimp only
      split <;> simp
    · simp
  · unfold auditStage
    rw [if_neg h]
  · unfold auditStage at ha
    split at ha
    · dsimp only at ha
      split at ha
      · simp only [List.mem_singleton] at ha
        subst ha
        exact ⟨rfl, rfl⟩
      · cases ha
    · cases ha
  · unfold auditStage
    rw [if_pos h1]
    dsimp only
    rw [if_pos h2]
    rfl

/-- Witness for C8's amended statement at concrete inputs: a tick at 00:00
emits no audit alert, and a tick at 23:55 with the seeded `(100, 90)`
aggregates emits exactly one. -/
theorem c8_audit_once_per_tick_witness :
    auditStage [] initializeMonitoringState 0 0 = [] ∧
    (auditStage [c6Cauldron] c8State 0 86100000).length = 1 ∧
    (auditStage [] initializeMonitoringState 0 86100000).length ≤ 1 :=
  ⟨c8_audit_once_per_tick.2.1 [] initializeMonitoringState 0 0 (by decide),
   c8_audit_once_per_tick.2.2.2.1 [c6Cauldron] c8State 0 86100000
     (by decide) (by decide),
   c8_audit_once_per_tick.1 [] initializeMonitoringState 0 86100000⟩

/-- C9 counterexample: a vessel with `max_volume = −1 ≤ 0` is *not* excluded
— the JS guard `!cauldron.max_volume` only catches 0 — so drain detection
runs (a 0.6 L drop beats the negative 5% threshold and opens an active
drain) and the last-level bookkeeping is updated for it. -/
theorem c9_negative_capacity_not_excluded :
    c9Cauldron.max_volume ≤ 0 ∧
    aget c9Run.1.activeDrains "c1" = some 0 ∧
    aget c9Run.1.drainStore 0 =
      some ⟨"c1", 60000, 1, 4/10, 6/10, 1, none, true⟩ ∧
    aget c9Run.1.lastLevels "c1" = some (4/10) := by decide

/-- C9 as amended: a vessel whose id is missing/empty or whose
`max_volume` equals 0 is excluded from all per-vessel computations for the
tick — `processCauldron` returns its accumulator unchanged, adding no alert
and no state update — while a negative capacity does not trigger the
guard. -/
theorem c9_falsy_vessels_excluded :
    ∀ (origState : MonitoringState) (ctx : TickCtx)
      (currentLevels : List (String × ℚ)) (acc : MonitoringState × List Alert)
      (cauldron : CauldronDto),
      strFalsy cauldron.id = true ∨ cauldron.max_volume = 0 →
      processCauldron origState ctx currentLevels acc cauldron = acc := by
  intro origState ctx currentLevels acc cauldron h
  unfold processCauldron
  rcases h with h | h
  · rw [if_pos (Or.inl h)]
  · rw [if_pos (Or.inr (by simp [numFalsy, h]))]

/-- Witness for C9's amended statement: a zero-capacity vessel and an
empty-id vessel are both skipped by the per-vessel step. -/
theorem c9_falsy_vessels_excluded_witness :
    processCauldron initializeMonitoringState ⟨[], [], 0, 0⟩ [("c1", 50)]
      (initializeMonitoringState, []) ⟨some "c1", none, 0⟩ =
      (initializeMonitoringState, []) ∧
    processCauldron initializeMonitoringState ⟨[], [], 0, 0⟩ [("c1", 50)]
      (initializeMonitoringState, []) ⟨some "", none, 100⟩ =
      (initializeMonitoringState, []) :=
  ⟨c9_falsy_vessels_excluded _ _ _ _ _ (Or.inr rfl),
   c9_falsy_vessels_excluded _ _ _ _ _ (Or.inl (by decide))⟩

/-- C2 counterexample: in a single orchestrator run with exactly one ticket,
two distinct drains are finalized (started at minutes 1 and 8) and the
matcher returns that *same* ticket for both — visible both in
`matchTicketToDrain` applied to the two finalized events and in the two
overreporting alerts, each of which carries the one ticket's 50 L as its
reported volume.  Nothing ever consumes a matched ticket. -/
theorem c2_ticket_matched_to_two_drains :
    c2Run.1.drainStore = [(0, c2Ev1), (1, c2Ev2)] ∧
    c2Ev1 ≠ c2Ev2 ∧
    matchTicketToDrain c2Ev1 [c2Ticket] = some c2Ticket ∧
    matchTicketToDrain c2Ev2 [c2Ticket] = some c2Ticket ∧
    ((c2Run.2.filter fun a => a.type = .overreporting).map fun a =>
      (a.id, a.details)) =
      [("overreporting-c1-360000",
        [("expectedDrainVolume", 10), ("reportedVolume", 50), ("discrepancy", 40)]),
       ("overreporting-c1-780000",
        [("expectedDrainVolume", 12), ("reportedVolume", 50), ("discrepancy", 38)])] := by
  set_option maxRecDepth 100000 in decide

/-- `dailyTicketsNodup` only inspects the `dailyTickets` field. -/
theorem dailyTicketsNodup_of_eq {s1 s2 : MonitoringState}
    (h : s2.dailyTickets = s1.dailyTickets) :
    dailyTicketsNodup s1 → dailyTicketsNodup s2 := by
  intro h1 cid dm hdm dk l hl
  rw [h] at hdm
  exact h1 cid dm hdm dk l hl

/-- The production-stop stage never touches the daily ticket aggregates. -/
theorem productionStopStage_dailyTickets (ctx : TickCtx) (cid : String)
    (cl pl fr : ℚ) (st : MonitoringState) :
    (productionStopStage ctx cid cl pl fr st).1.dailyTickets = st.dailyTickets := by
  unfold productionStopStage
  dsimp only
  repeat' split
  all_goals rfl

/-- The overflow stage never touches the daily ticket aggregates. -/
theorem overflowStage_dailyTickets (ctx : TickCtx) (cid : String)
    (cauldron : CauldronDto) (cl fr : ℚ) (st : MonitoringState) :
    (overflowStage ctx cid cauldron cl fr st).1.dailyTickets = st.dailyTickets := by
  unfold overflowStage
  dsimp only
  repeat' split
  all_goals rfl

/-- The critical-level stage never touches the daily ticket aggregates. -/
theorem criticalLevelStage_dailyTickets (ctx : TickCtx) (cid : String)
    (cauldron : CauldronDto) (cl pl : ℚ) (st : MonitoringState) :
    (criticalLevelStage ctx cid cauldron cl pl st).1.dailyTickets = st.dailyTickets := by
  unfold criticalLevelStage
  dsimp only
  repeat' split
  all_goals rfl

/-- Drain finalization either leaves the daily ticket aggregates unchanged
or appends the matched ticket to the vessel's day list, and then only when
no stored ticket of that list shares its ticket id. -/
theorem finalizeDrain_dailyTickets_cases (ctx : TickCtx) (cid : String)
    (bfr rr : ℚ) (r : ℕ) (ev' : DrainEvent) (st : MonitoringState) :
    (finalizeDrain ctx cid bfr rr r ev' st).1.dailyTickets = st.dailyTickets ∨
    ∃ mt : TicketDto,
      ((aget ((aget st.dailyTickets cid).getD []) ctx.dateKey).getD []).any
          (fun t => t.ticket_id = mt.ticket_id) = false ∧
      (finalizeDrain ctx cid bfr rr r ev' st).1.dailyTickets =
        aset st.dailyTickets cid
          (aset ((aget st.dailyTickets cid).getD []) ctx.dateKey
            ((aget ((aget st.dailyTickets cid).getD []) ctx.dateKey).getD [] ++ [mt])) := by
  unfold finalizeDrain
  dsimp only
  rcases hM : matchTicketToDrain ev' ctx.tickets with _ | mt
  · left; rfl
  · rcases hD : assessDiscrepancy ev' (some mt) TOLERANCE with _ | disc
    · dsimp only
      split
      · left; rfl
      · rename_i hguard
        right
        exact ⟨mt, by simpa using hguard, rfl⟩
    · dsimp only
      split
      · left; rfl
      · rename_i hguard
        right
        exact ⟨mt, by simpa using hguard, rfl⟩

/-- The drain stage either leaves the daily ticket aggregates unchanged or
appends the matched ticket to the vessel's day list, and then only when no
stored ticket of that list shares its ticket id. -/
theorem drainStage_dailyTickets_cases (ctx : TickCtx) (cauldron : CauldronDto)
    (cid : String) (cl pl fr bfr : ℚ) (st : MonitoringState) :
    (drainStage ctx cauldron cid cl pl fr bfr st).1.dailyTickets = st.dailyTickets ∨
    ∃ mt : TicketDto,
      ((aget ((aget st.dailyTickets cid).getD []) ctx.dateKey).getD []).any
          (fun t => t.ticket_id = mt.ticket_id) = false ∧
      (drainStage ctx cauldron cid cl pl fr bfr st).1.dailyTickets =
        aset st.dailyTickets cid
          (aset ((aget st.dailyTickets cid).getD []) ctx.dateKey
            ((aget ((aget st.dailyTickets cid).getD []) ctx.dateKey).getD [] ++ [mt])) := by
  unfold drainStage
  dsimp only
  split
  · rcases hA : aget st.activeDrains cid with _ | r
    · left; rfl
    · dsimp only
      rcases hS : aget st.drainStore r with _ | ev
      · left; rfl
      · left; rfl
  · rcases hA : aget st.activeDrains cid with _ | r
    · left; rfl
    · dsimp only
      rcases hS : aget st.drainStore r with _ | ev
      · left; rfl
      · dsimp only
        split
        · exact finalizeDrain_dailyTickets_cases ctx cid bfr _ r _ st
        · left; rfl

/-- The drain stage preserves the no-duplicate-ticket-id invariant of the
stored matched-ticket lists. -/
theorem drainStage_nodup (ctx : TickCtx) (cauldron : CauldronDto) (cid : String)
    (cl pl fr bfr : ℚ) (st : MonitoringState) (h : dailyTicketsNodup st) :
    dailyTicketsNodup (drainStage ctx cauldron cid cl pl fr bfr st).1 := by
  rcases drainStage_dailyTickets_cases ctx cauldron cid cl pl fr bfr st with
    heq | ⟨mt, hguard, heq⟩
  · exact dailyTicketsNodup_of_eq heq h
  · intro cid' dm hdm dk' l hl
    rw [heq, aget_aset] at hdm
    by_cases hc : cid' = cid
    · subst hc
      rw [if_pos rfl] at hdm
      obtain rfl := Option.some.inj hdm
      rw [aget_aset] at hl
      by_cases hdk : dk' = ctx.dateKey
      · subst hdk
        rw [if_pos rfl] at hl
        obtain rfl := Option.some.inj hl
        have hday : ((aget ((aget st.dailyTickets cid').getD [])
            ctx.dateKey).getD []).Pairwise
            (fun a b => a.ticket_id ≠ b.ticket_id) := by
          rcases h1 : aget st.dailyTickets cid' with _ | dm0
          · simp [aget]
          · rcases h2 : aget dm0 ctx.dateKey with _ | l0
            · simp [h2, aget]
            · simpa [h2] using h cid' dm0 h1 ctx.dateKey l0 h2
        simp only [List.any_eq_false, decide_eq_true_eq] at hguard
        refine List.pairwise_append.mpr ⟨hday, List.pairwise_singleton _ _, ?_⟩
        intro a ha b hb
        rw [List.mem_singleton] at hb
        subst hb
        exact hguard a ha
      · rw [if_neg hdk] at hl
        rcases h1 : aget st.dailyTickets cid' with _ | dm0
        · rw [h1] at hl
          simp [aget] at hl
        · rw [h1] at hl
          exact h cid' dm0 h1 dk' l hl
    · rw [if_neg hc] at hdm
      exact h cid' dm hdm dk' l hl

/-- The per-vessel step preserves the no-duplicate-ticket-id invariant. -/
theorem processCauldron_nodup (origState : MonitoringState) (ctx : TickCtx)
    (currentLevels : List (String × ℚ)) (acc : MonitoringState × List Alert)
    (cauldron : CauldronDto) (h : dailyTicketsNodup acc.1) :
    dailyTicketsNodup (processCauldron origState ctx currentLevels acc cauldron).1 := by
  unfold processCauldron
  split
  · exact h
  · dsimp only
    exact dailyTicketsNodup_of_eq rfl
      (dailyTicketsNodup_of_eq (criticalLevelStage_dailyTickets _ _ _ _ _ _)
        (dailyTicketsNodup_of_eq (overflowStage_dailyTickets _ _ _ _ _ _)
          (dailyTicketsNodup_of_eq (productionStopStage_dailyTickets _ _ _ _ _ _)
            (drainStage_nodup _ _ _ _ _ _ _ _
              (dailyTicketsNodup_of_eq rfl
                (by split
                    · exact dailyTicketsNodup_of_eq rfl h
                    · exact h))))))

/-- C2 as amended: the matcher is stateless over the full ticket pool and
can return the same ticket for two distinct drains (see the counterexample);
what the orchestrator does guarantee is in the daily aggregate — one
orchestrator tick never stores two tickets with the same ticket id in any
vessel's per-day matched-ticket list, so the invariant is preserved on every
run. -/
theorem c2_daily_ticket_dedup (cauldrons : List CauldronDto)
    (historicalData : List HistoricalDataDto) (tickets : List TicketDto)
    (currentTimestamp : ℤ) (state : MonitoringState)
    (couriers : Option (List CourierDto)) (network : Option NetworkDto)
    (h : dailyTicketsNodup state) :
    dailyTicketsNodup (monitorRealTime cauldrons historicalData tickets
      currentTimestamp state couriers network).2 := by
  unfold monitorRealTime
  cases hN : findNearestDataPoint historicalData currentTimestamp with
  | none => exact h
  | some dp =>
    dsimp only
    have hfold : ∀ (cs : List CauldronDto) (acc : MonitoringState × List Alert),
        dailyTicketsNodup acc.1 →
        dailyTicketsNodup ((cs.foldl (processCauldron state
          ⟨historicalData, tickets, currentTimestamp, dayIndex currentTimestamp⟩
          dp.levels) acc)).1 := by
      intro cs
      induction cs with
      | nil => intro acc hacc; exact hacc
      | cons c cs ih =>
        intro acc hacc
        exact ih _ (processCauldron_nodup _ _ _ _ _ hacc)
    exact hfold cauldrons (state, []) h

/-- Witness for C2's amended statement: the ticket-reuse run's first tick,
started from the empty state, keeps the daily matched-ticket lists free of
duplicate ticket ids. -/
theorem c2_daily_ticket_dedup_witness :
    dailyTicketsNodup (monitorRealTime [c2Cauldron]
      [⟨0, [("c1", 100)]⟩] [c2Ticket] 0 initializeMonitoringState none none).2 :=
  c2_daily_ticket_dedup _ _ _ _ _ _ _
    (by intro cid dm hdm; simp [initializeMonitoringState, aget] at hdm)
